import Mathlib

/-!
# Verification of the Wordle game core (`src/game.js`, `src/unnamed/part_000`)

A shallow embedding of the game's configuration, scoring engine, session
state machine, input gate, statistics aggregator and persistence bridge,
together with proofs of the specified properties.

Conventions of the embedding:
* DOM tiles become a `Board` function from (row, col) to a `Tile` record
  holding `textContent` and the class list; `getElementById("tile-i-j")`
  succeeds exactly when `i < MAX_ATTEMPTS ∧ j < WORD_LENGTH`, so writes
  through missing elements are guarded by those bounds.
* The pending promise of `dictionaryService.isValidWord(guess)` is made
  explicit as a `pending : Option String` component; its resolution is an
  explicit `Ev.complete` event carrying the validation outcome.
* Purely presentational calls (`showMessage`, `showModal`, keyboard key
  colouring, animation delays) have no game-state effect and are elided;
  the ordering the timers impose (scoring classes applied, then
  `checkGameResult`, then `isValidating = false`) is kept.
* `Math.floor(Math.random() * WORDS.length)` becomes an arbitrary index
  `k : Fin WORDS.length` supplied by the environment.
-/

/-! ## Configuration (`src/unnamed/part_000`) -/

def MAX_ATTEMPTS : Nat := 6

def WORD_LENGTH : Nat := 5

/-- The fixed target-word list `WORDS` from the configuration file. -/
def WORDS : List String :=
  ["CRANE", "SLATE", "AUDIO", "SPORT", "BREAK", "PLANT", "STORM", "DANCE",
   "TEACH", "ROUND", "PARTY", "SHARK", "BEACH", "TRAIN", "FRUIT", "BLANK",
   "DREAM", "SMART", "CLIMB", "QUIET", "BRAIN", "HEART", "MONEY", "POWER",
   "WORLD", "PIZZA", "SOLAR", "ROBOT", "CLOUD", "PIXEL", "MAGIC", "QUEEN",
   "THINK", "TIGER", "OCEAN", "MOUNT", "RIVER", "LIGHT", "MOUSE", "PHONE"]

/-! ## Scoring engine (`processGuess`, first and second pass) -/

/-- The per-letter status strings `"correct" | "present" | "absent"`. -/
inductive LetterStatus where
  | correct
  | present
  | absent
deriving DecidableEq, Repr

/-- The CSS class added for a status (`tile.classList.add(letterStatus[i])`). -/
def statusClass : LetterStatus → String
  | .correct => "correct"
  | .present => "present"
  | .absent => "absent"

/-- First pass of `processGuess`: the loop marking `correct` positions and
nulling the matched entries of `targetArray`.  Returns the status array
(initialised to `absent` elsewhere) and the remaining target pool, where
`none` stands for a consumed (`null`ed) entry. -/
def firstPass : List Char → List Char → List LetterStatus × List (Option Char)
  | g :: gs, t :: ts =>
    let rest := firstPass gs ts
    if g = t then (.correct :: rest.1, none :: rest.2)
    else (.absent :: rest.1, some t :: rest.2)
  | _, _ => ([], [])

/-- `targetArray.indexOf(c)` followed by `targetArray[index] = null`:
returns whether an unconsumed occurrence was found, and the pool with the
first such occurrence nulled out. -/
def removeFirst : List (Option Char) → Char → Bool × List (Option Char)
  | [], _ => (false, [])
  | x :: xs, c =>
    if x = some c then (true, none :: xs)
    else
      let r := removeFirst xs c
      (r.1, x :: r.2)

/-- Second pass of `processGuess`: positions already `correct` are skipped;
otherwise a remaining occurrence of the guessed letter in the pool turns
the position `present` and consumes that occurrence, else the status stays
as initialised (`absent`). -/
def secondPass : List Char → List LetterStatus → List (Option Char) → List LetterStatus
  | g :: gs, st :: sts, pool =>
    if st = .correct then st :: secondPass gs sts pool
    else
      let r := removeFirst pool g
      if r.1 then .present :: secondPass gs sts r.2
      else st :: secondPass gs sts pool
  | _, _, _ => []

/-- The complete scoring computation of `processGuess`: two passes over the
guess against the target, with duplicate-consuming pool semantics. -/
def scoreGuess (guess target : List Char) : List LetterStatus :=
  let fp := firstPass guess target
  secondPass guess fp.1 fp.2

/-- Number of positions of `guess` holding letter `L` that were credited
(`correct` or `present`) by a status list. -/
def creditCount (guess : List Char) (sts : List LetterStatus) (L : Char) : Nat :=
  (guess.zip sts).countP fun p =>
    decide (p.1 = L ∧ (p.2 = LetterStatus.correct ∨ p.2 = LetterStatus.present))

/-- Number of positions of `guess` holding letter `L` marked `correct`. -/
def correctCount (guess : List Char) (sts : List LetterStatus) (L : Char) : Nat :=
  (guess.zip sts).countP fun p => decide (p.1 = L ∧ p.2 = LetterStatus.correct)

example : scoreGuess "AABBB".toList "ABABA".toList =
    [.correct, .present, .present, .correct, .absent] := by decide

example : scoreGuess "CRANE".toList "CRANE".toList =
    [.correct, .correct, .correct, .correct, .correct] := by decide

/-! ## Board, session state and input (`game.js` globals and handlers) -/

/-- One DOM tile: its `textContent` and its class list. -/
structure Tile where
  content : String
  className : List String
deriving DecidableEq, Repr

/-- The rendered board: `board i j` is the tile with id `tile-i-j`.  Only
indices with `i < MAX_ATTEMPTS ∧ j < WORD_LENGTH` correspond to elements
created by `createBoard`. -/
def Board : Type := Nat → Nat → Tile

/-- `classList.add(c)`: appends the token if not already present. -/
def classListAdd (cls : List String) (c : String) : List String :=
  if c ∈ cls then cls else cls ++ [c]

/-- `classList.remove(c)`: removes the token. -/
def classListRemove (cls : List String) (c : String) : List String :=
  cls.filter fun x => x ≠ c

/-- Update the tile `tile-r-c` of the board. -/
def updateTile (b : Board) (r c : Nat) (f : Tile → Tile) : Board :=
  fun i j => if i = r ∧ j = c then f (b i j) else b i j

/-- The board as freshly produced by `createBoard` (and by the clearing
loop of `resetToNewGame`): empty content, class `"tile"`. -/
def initBoard : Board := fun _ _ => ⟨"", ["tile"]⟩

/-- The `stats` object (`DEFAULT_STATS` shape). -/
structure Stats where
  gamesPlayed : Nat
  gamesWon : Nat
  currentStreak : Nat
  maxStreak : Nat
deriving DecidableEq, Repr

/-- The module-level game variables of `game.js`.  `pending` is the
embedding of the unresolved `dictionaryService.isValidWord(guess)` promise
created by `submitGuess` (the captured `guess` awaiting its callback);
`inputEnabled` is declared `true` and never set to `false` by the code
outside `resetToNewGame`. -/
structure GameState where
  targetWord : String
  currentRow : Nat
  currentTile : Nat
  gameOver : Bool
  stats : Stats
  isValidating : Bool
  inputEnabled : Bool
  gameStarted : Bool
  board : Board
  pending : Option String

/-- A fresh session with target word `WORDS[k]` and `DEFAULT_STATS`. -/
def initState (k : Fin WORDS.length) : GameState :=
  { targetWord := WORDS.get k
    currentRow := 0
    currentTile := 0
    gameOver := false
    stats := ⟨0, 0, 0, 0⟩
    isValidating := false
    inputEnabled := true
    gameStarted := false
    board := initBoard
    pending := none }

/-- `addLetter(letter)`: no-op at a full cursor; marks the game started on
the very first letter; writes the letter, adds the `filled` class and
advances the cursor. -/
def addLetter (s : GameState) (c : Char) : GameState :=
  if WORD_LENGTH ≤ s.currentTile then s
  else
    { s with
      gameStarted := if s.currentTile = 0 ∧ s.currentRow = 0 then true else s.gameStarted
      board := updateTile s.board s.currentRow s.currentTile fun t =>
        { t with content := String.singleton c, className := classListAdd t.className "filled" }
      currentTile := s.currentTile + 1 }

/-- `deleteLetter()`: no-op at cursor 0; otherwise steps the cursor back
and clears that tile. -/
def deleteLetter (s : GameState) : GameState :=
  if 0 < s.currentTile then
    let ct := s.currentTile - 1
    { s with
      currentTile := ct
      board := updateTile s.board s.currentRow ct fun t =>
        { t with content := "", className := classListRemove t.className "filled" } }
  else s

/-- The guess `submitGuess` reads back from the active row's tiles. -/
def currentGuess (s : GameState) : String :=
  String.join ((List.range WORD_LENGTH).map fun i => (s.board s.currentRow i).content)

/-- `endGameWon()`: terminal flag, stats mutation (`gamesPlayed++`,
`gamesWon++`, `currentStreak++`, `maxStreak = max(maxStreak,
currentStreak)`), and the session-protection flag is dropped.  The
localStorage stats write and snapshot-key removals persist outside the
session state and are modelled at the storage layer. -/
def endGameWon (s : GameState) : GameState :=
  { s with
    gameOver := true
    stats := ⟨s.stats.gamesPlayed + 1, s.stats.gamesWon + 1, s.stats.currentStreak + 1,
      Nat.max s.stats.maxStreak (s.stats.currentStreak + 1)⟩
    gameStarted := false }

/-- `endGameLost()`: terminal flag, `gamesPlayed++`, streak reset. -/
def endGameLost (s : GameState) : GameState :=
  { s with
    gameOver := true
    stats := ⟨s.stats.gamesPlayed + 1, s.stats.gamesWon, 0, s.stats.maxStreak⟩
    gameStarted := false }

/-- `checkGameResult(guess)`: win beats the last-row check; otherwise the
row advances and the cursor resets. -/
def checkGameResult (s : GameState) (guess : String) : GameState :=
  if guess = s.targetWord then endGameWon s
  else if s.currentRow = MAX_ATTEMPTS - 1 then endGameLost s
  else { s with currentRow := s.currentRow + 1, currentTile := 0 }

/-- The reveal loop of `processGuess`: for `i` in `0..WORD_LENGTH-1`, add
the status class to `tile-currentRow-i` (key colouring is presentational
and elided). -/
def applyStatuses (b : Board) (row : Nat) (sts : List LetterStatus) : Board :=
  ((List.range WORD_LENGTH).zip sts).foldl
    (fun acc p => updateTile acc row p.1 fun t =>
      { t with className := classListAdd t.className (statusClass p.2) })
    b

/-- `processGuess(guess)`: score, reveal the statuses on the active row,
then (after the flip animation) run `checkGameResult` and clear
`isValidating`. -/
def processGuess (s : GameState) (guess : String) : GameState :=
  { checkGameResult
      { s with board :=
          applyStatuses s.board s.currentRow (scoreGuess guess.toList s.targetWord.toList) }
      guess
    with isValidating := false }

/-- Outcome of the `dictionaryService.isValidWord` promise: resolution
with `true`, resolution with `false`, or rejection. -/
inductive ValidationResult where
  | valid
  | invalid
  | error
deriving DecidableEq, Repr

/-- The `.then`/`.catch` callbacks of `submitGuess`: an invalid word or a
validation error only clears `isValidating`; a valid word is processed. -/
def submitComplete (s : GameState) (guess : String) (r : ValidationResult) : GameState :=
  match r with
  | .invalid => { s with isValidating := false }
  | .error => { s with isValidating := false }
  | .valid => processGuess s guess

/-- JS `guess.trim() === ""`: the trimmed string is empty exactly when
every character is whitespace; stated through `all isWhitespace` so the
definition kernel-computes (Lean's `String.trim` is opaque to reduction). -/
def trimmedEmpty (g : String) : Bool :=
  g.toList.all Char.isWhitespace

/-- The synchronous part of `submitGuess()`: the in-flight and
completeness guards, the read-back of the guess, the emptiness guard, and
the creation of the validation request (`isValidating = true` plus the
pending promise). -/
def submitGuess (s : GameState) : GameState :=
  if s.isValidating then s
  else if s.currentTile < WORD_LENGTH then s
  else if (currentGuess s).length ≠ WORD_LENGTH ∨ trimmedEmpty (currentGuess s) then s
  else { s with isValidating := true, pending := some (currentGuess s) }

/-- Keys delivered to `handleKeyPress`. -/
inductive Key where
  | enter
  | backspace
  | letter (c : Char)
deriving DecidableEq, Repr

/-- `handleKeyPress(key)`: terminal guard, global input lock, the two
in-flight guards for ENTER and backspace, then dispatch. -/
def handleKeyPress (s : GameState) (k : Key) : GameState :=
  if s.gameOver then s
  else if !s.inputEnabled then s
  else if s.isValidating ∧ k = .enter then s
  else if s.isValidating ∧ k = .backspace then s
  else
    match k with
    | .enter => submitGuess s
    | .backspace => deleteLetter s
    | .letter c => if s.currentTile < WORD_LENGTH then addLetter s c else s

/-- `resetToNewGame()` (board-clearing variant): fresh target from
`WORDS`, cursors and flags reset, board cleared.  The snapshot-key
removals live at the storage layer; a pending promise of a previous
submission is untouched (its callbacks survive the reset). -/
def resetToNewGame (s : GameState) (k : Fin WORDS.length) : GameState :=
  { s with
    targetWord := WORDS.get k
    currentRow := 0
    currentTile := 0
    gameOver := false
    gameStarted := false
    isValidating := false
    inputEnabled := true
    board := initBoard }

/-- Events driving the session: a key press, the resolution of the
in-flight validation promise, or a player-initiated game reset. -/
inductive Ev where
  | key (k : Key)
  | complete (r : ValidationResult)
  | reset (k : Fin WORDS.length)
deriving DecidableEq

/-- One event step.  A completion event with no pending request is the
resolution of an already-consumed promise and does nothing. -/
def step (s : GameState) (e : Ev) : GameState :=
  match e with
  | .key k => handleKeyPress s k
  | .complete r =>
    match s.pending with
    | some g => submitComplete { s with pending := none } g r
    | none => s
  | .reset k => resetToNewGame s k

/-- Run a sequence of events. -/
def run (s : GameState) (evs : List Ev) : GameState :=
  evs.foldl step s

/-! ## Persistence bridge (`saveCompleteGameState`, `restoreGameState`,
`initSessionProtection`) -/

/-- One entry of the serialized `boardState` array. -/
structure TileData where
  row : Nat
  col : Nat
  content : String
  className : List String
deriving DecidableEq, Repr

/-- A parsed `gameState` JSON object.  `boardState` is optional: `none`
models a snapshot whose JSON parses but lacks a usable `boardState` array
(so `state.boardState.forEach` throws).  The scalar fields are modelled at
their expected types; `timestamp`, `active` and `guesses` are stored but
never read back by `restoreGameState`. -/
structure GameSnapshot where
  timestamp : Nat
  active : Bool
  targetWord : String
  currentRow : Nat
  currentTile : Nat
  gameOver : Bool
  boardState : Option (List TileData)
  guesses : List String
deriving DecidableEq, Repr

/-- The string stored under `GAME_STATE_KEY`, abstracted by what
`JSON.parse` does with it. -/
inductive StoredValue where
  | unparseable
  | parsed (snap : GameSnapshot)
deriving DecidableEq, Repr

/-- The localStorage slots the persistence bridge uses. -/
structure Storage where
  gameState : Option StoredValue
  activeGame : Option String
deriving DecidableEq, Repr

/-- The double loop of `saveCompleteGameState` serializing every tile of
the board with its coordinates. -/
def boardTiles (b : Board) : List TileData :=
  (List.range MAX_ATTEMPTS).flatMap fun i =>
    (List.range WORD_LENGTH).map fun j =>
      ⟨i, j, (b i j).content, (b i j).className⟩

/-- `saveCompleteGameState()`: only for a started, non-terminal session;
writes the full snapshot under `GAME_STATE_KEY` and `"true"` under
`ACTIVE_GAME_KEY`.  `now` stands for `Date.now()`. -/
def saveCompleteGameState (now : Nat) (s : GameState) (st : Storage) : Storage :=
  if s.gameStarted ∧ s.gameOver = false then
    { st with
      gameState := some (.parsed
        ⟨now, true, s.targetWord, s.currentRow, s.currentTile, s.gameOver,
         some (boardTiles s.board), []⟩)
      activeGame := some "true" }
  else st

/-- The `state.boardState.forEach` loop of `restoreGameState`: each saved
tile is written back through `getElementById` (`if (tileEl)` succeeds
exactly for in-range coordinates). -/
def applyTiles (ts : List TileData) (b : Board) : Board :=
  ts.foldl
    (fun acc t =>
      if t.row < MAX_ATTEMPTS ∧ t.col < WORD_LENGTH then
        updateTile acc t.row t.col fun _ => ⟨t.content, t.className⟩
      else acc)
    b

/-- `restoreGameState()`: requires the `"true"` marker and a stored
snapshot; an unparseable snapshot throws inside `JSON.parse`, before any
assignment; a parsed snapshot first assigns `targetWord`, `currentRow`,
`currentTile`, `gameOver` and `gameStarted`, and only then walks
`boardState` — a missing `boardState` throws at that point, with the
scalar assignments already performed, and the `catch` returns `false`.
`restoreGameState` itself never writes to storage. -/
def restoreGameState (s : GameState) (st : Storage) : Bool × GameState :=
  match st.activeGame, st.gameState with
  | some a, some sv =>
    if a = "true" then
      match sv with
      | .unparseable => (false, s)
      | .parsed snap =>
        let s₁ := { s with
          targetWord := snap.targetWord
          currentRow := snap.currentRow
          currentTile := snap.currentTile
          gameOver := snap.gameOver
          gameStarted := true }
        match snap.boardState with
        | none => (false, s₁)
        | some ts => (true, { s₁ with board := applyTiles ts s₁.board })
    else (false, s)
  | _, _ => (false, s)

/-- `initSessionProtection()`: on a fresh browsing session
(`hasSession = false`), attempt a restore; when the restore fails, drop
the started flag and remove both snapshot keys. -/
def initSessionProtection (hasSession : Bool) (s : GameState) (st : Storage) :
    GameState × Storage :=
  if hasSession then (s, st)
  else
    let r := restoreGameState s st
    if r.1 then (r.2, st)
    else ({ r.2 with gameStarted := false }, { st with gameState := none, activeGame := none })

/-! ## Scoring-engine lemmas (C1) -/

theorem removeFirst_count_found (c : Char) :
    ∀ pool : List (Option Char), (removeFirst pool c).1 = true →
      (removeFirst pool c).2.count (some c) + 1 = pool.count (some c)
  | [], h => by simp [removeFirst] at h
  | x :: xs, h => by
    by_cases hx : x = some c
    · subst hx
      simp [removeFirst, List.count_cons]
    · have h' : (removeFirst xs c).1 = true := by
        simpa [removeFirst, hx] using h
      have ih := removeFirst_count_found c xs h'
      by_cases hxL : x = some c
      · exact absurd hxL hx
      · simp only [removeFirst, if_neg hx]
        simp [List.count_cons]
        omega

theorem removeFirst_count_le (c L : Char) :
    ∀ pool : List (Option Char),
      (removeFirst pool c).2.count (some L) ≤ pool.count (some L)
  | [] => by simp [removeFirst]
  | x :: xs => by
    by_cases hx : x = some c
    · subst hx
      simp [removeFirst, List.count_cons]
    · have ih := removeFirst_count_le c L xs
      simp only [removeFirst, if_neg hx]
      simp [List.count_cons]
      omega

theorem firstPass_count (L : Char) :
    ∀ g t : List Char, g.length = t.length →
      correctCount g (firstPass g t).1 L + ((firstPass g t).2).count (some L) = t.count L
  | [], [], _ => by simp [correctCount, firstPass]
  | [], _ :: _, h => by simp at h
  | _ :: _, [], h => by simp at h
  | g :: gs, t :: ts, h => by
    have ih := firstPass_count L gs ts (by simpa using h)
    by_cases hgt : g = t
    · subst hgt
      by_cases hgL : g = L
      · subst hgL
        simp only [firstPass, if_pos rfl]
        simp [correctCount, List.countP_cons, List.count_cons] at ih ⊢
        omega
      · simp only [firstPass, if_pos rfl]
        simp [correctCount, List.countP_cons, List.count_cons, hgL] at ih ⊢
        omega
    · by_cases htL : t = L
      · subst htL
        simp only [firstPass, if_neg hgt]
        simp [correctCount, List.countP_cons, List.count_cons, hgt] at ih ⊢
        omega
      · simp only [firstPass, if_neg hgt]
        simp [correctCount, List.countP_cons, List.count_cons, htL] at ih ⊢
        omega

theorem present_not_mem_firstPass :
    ∀ g t : List Char, LetterStatus.present ∉ (firstPass g t).1
  | [], t => by cases t <;> simp [firstPass]
  | _ :: _, [] => by simp [firstPass]
  | g :: gs, t :: ts => by
    have ih := present_not_mem_firstPass gs ts
    by_cases hgt : g = t <;> simp [firstPass, hgt, ih]

theorem secondPass_credit (L : Char) :
    ∀ (g : List Char) (sts : List LetterStatus) (pool : List (Option Char)),
      LetterStatus.present ∉ sts →
      creditCount g (secondPass g sts pool) L ≤ correctCount g sts L + pool.count (some L)
  | [], sts, pool, _ => by cases sts <;> simp [creditCount, secondPass, correctCount]
  | _ :: _, [], pool, _ => by simp [creditCount, secondPass, correctCount]
  | c :: gs, st :: sts, pool, hpres => by
    have hst : st ≠ LetterStatus.present := fun hs => hpres (hs ▸ List.mem_cons_self st sts)
    have hpres' : LetterStatus.present ∉ sts := fun hs => hpres (List.mem_cons_of_mem st hs)
    by_cases hc : st = LetterStatus.correct
    · subst hc
      have ih := secondPass_credit L gs sts pool hpres'
      by_cases hcL : c = L
      · subst hcL
        simp only [secondPass, if_pos rfl]
        simp [creditCount, correctCount, List.countP_cons] at ih ⊢
        omega
      · simp only [secondPass, if_pos rfl]
        simp [creditCount, correctCount, List.countP_cons, hcL] at ih ⊢
        omega
    · have habs : st = LetterStatus.absent := by cases st <;> simp_all
      subst habs
      simp only [secondPass, if_neg hc]
      by_cases hfound : (removeFirst pool c).1 = true
      · simp only [if_pos hfound]
        by_cases hcL : c = L
        · subst hcL
          have hcount := removeFirst_count_found c pool hfound
          have ih := secondPass_credit c gs sts (removeFirst pool c).2 hpres'
          simp [creditCount, correctCount, List.countP_cons] at ih ⊢
          omega
        · have hle := removeFirst_count_le c L pool
          have ih := secondPass_credit L gs sts (removeFirst pool c).2 hpres'
          simp [creditCount, correctCount, List.countP_cons, hcL] at ih ⊢
          omega
      · simp only [if_neg hfound]
        have ih := secondPass_credit L gs sts pool hpres'
        by_cases hcL : c = L
        · subst hcL
          simp [creditCount, correctCount, List.countP_cons] at ih ⊢
          omega
        · simp [creditCount, correctCount, List.countP_cons, hcL] at ih ⊢
          omega

theorem firstPass_fst_length :
    ∀ g t : List Char, g.length = t.length → (firstPass g t).1.length = g.length
  | [], [], _ => by simp [firstPass]
  | [], _ :: _, h => by simp at h
  | _ :: _, [], h => by simp at h
  | g :: gs, t :: ts, h => by
    have ih := firstPass_fst_length gs ts (by simpa using h)
    by_cases hgt : g = t <;> simp [firstPass, hgt, ih]

theorem secondPass_length :
    ∀ (g : List Char) (sts : List LetterStatus) (pool : List (Option Char)),
      g.length = sts.length → (secondPass g sts pool).length = g.length
  | [], [], _, _ => by simp [secondPass]
  | [], _ :: _, _, h => by simp at h
  | _ :: _, [], _, h => by simp at h
  | c :: gs, st :: sts, pool, h => by
    have ih := fun pool => secondPass_length gs sts pool (by simpa using h)
    by_cases hc : st = LetterStatus.correct
    · simp [secondPass, hc, ih]
    · by_cases hfound : (removeFirst pool c).1 = true <;>
        simp [secondPass, hc, hfound, ih]

/-- C1: for every guess `G` and target `T` of length `WORD_LENGTH`, the
scoring computation of `processGuess` assigns each of the `WORD_LENGTH`
positions exactly one status (the status array has exactly `WORD_LENGTH`
entries, each a single element of {correct, present, absent}), and for
every letter `L` the number of positions of `G` marked `correct` or
`present` that hold `L` never exceeds the number of occurrences of `L` in
`T`: duplicates beyond the target's unconsumed occurrences stay absent. -/
theorem c1_scoring_bounded (G T : List Char)
    (hG : G.length = WORD_LENGTH) (hT : T.length = WORD_LENGTH) :
    (scoreGuess G T).length = WORD_LENGTH ∧
    ∀ L : Char, creditCount G (scoreGuess G T) L ≤ T.count L := by
  have hlen : G.length = T.length := by rw [hG, hT]
  constructor
  · rw [scoreGuess, secondPass_length G _ _ (firstPass_fst_length G T hlen).symm, hG]
  · intro L
    calc creditCount G (scoreGuess G T) L
        ≤ correctCount G (firstPass G T).1 L + ((firstPass G T).2).count (some L) :=
          secondPass_credit L G _ _ (present_not_mem_firstPass G T)
      _ = T.count L := firstPass_count L G T hlen

/-- Witness for C1 at the spec's duplicate-consumption example: guess
`"AABBB"` against target `"ABABA"`. -/
theorem c1_scoring_bounded_witness :
    ("AABBB".toList.length = WORD_LENGTH ∧ "ABABA".toList.length = WORD_LENGTH) ∧
    ((scoreGuess "AABBB".toList "ABABA".toList).length = WORD_LENGTH ∧
      ∀ L : Char, creditCount "AABBB".toList (scoreGuess "AABBB".toList "ABABA".toList) L ≤
        "ABABA".toList.count L) :=
  ⟨⟨by decide, by decide⟩, c1_scoring_bounded "AABBB".toList "ABABA".toList (by decide) (by decide)⟩

/-! ## Session-state invariant (C4, C9) -/

/-- The inductive invariant of the event system: the cursor never exceeds
`WORD_LENGTH`, the row never exceeds `MAX_ATTEMPTS - 1`, and while a
validation is in flight on a non-terminal session the cursor sits at the
full position. -/
def StateInv (s : GameState) : Prop :=
  s.currentTile ≤ WORD_LENGTH ∧ s.currentRow < MAX_ATTEMPTS ∧
    (s.isValidating = true → s.gameOver = false → s.currentTile = WORD_LENGTH)

theorem stateInv_initState (k : Fin WORDS.length) : StateInv (initState k) := by
  refine ⟨by simp [initState, WORD_LENGTH], by simp [initState, MAX_ATTEMPTS], ?_⟩
  simp [initState]

theorem stateInv_addLetter (s : GameState) (c : Char) (h : StateInv s)
    (hv : s.isValidating = true → s.gameOver = false → False) :
    StateInv (addLetter s c) := by
  obtain ⟨h1, h2, _⟩ := h
  unfold addLetter
  split
  · exact ⟨h1, h2, fun hv' hg' => absurd (hv hv' hg') id⟩
  · refine ⟨by simp; omega, by simpa using h2, ?_⟩
    intro hv' hg'
    exact absurd (hv (by simpa using hv') (by simpa using hg')) id

theorem stateInv_deleteLetter (s : GameState) (h : StateInv s)
    (hv : s.isValidating = false) : StateInv (deleteLetter s) := by
  obtain ⟨h1, h2, _⟩ := h
  unfold deleteLetter
  split
  · exact ⟨by simp; omega, by simpa using h2, by simp [hv]⟩
  · exact ⟨h1, h2, by simp [hv]⟩

theorem stateInv_submitGuess (s : GameState) (h : StateInv s) :
    StateInv (submitGuess s) := by
  obtain ⟨h1, h2, h3⟩ := h
  unfold submitGuess
  split_ifs with hv ht hg
  · exact ⟨h1, h2, h3⟩
  · exact ⟨h1, h2, h3⟩
  · exact ⟨h1, h2, h3⟩
  · refine ⟨by simpa using h1, by simpa using h2, ?_⟩
    intro _ _
    simp only
    unfold WORD_LENGTH at ht h1 ⊢
    omega

theorem stateInv_checkGameResult (s : GameState) (g : String) (h : StateInv s) :
    (checkGameResult s g).currentTile ≤ WORD_LENGTH ∧
      (checkGameResult s g).currentRow < MAX_ATTEMPTS := by
  obtain ⟨h1, h2, _⟩ := h
  unfold checkGameResult endGameWon endGameLost
  split_ifs with hwin hrow
  · exact ⟨h1, h2⟩
  · exact ⟨h1, h2⟩
  · refine ⟨Nat.zero_le _, ?_⟩
    simp only
    unfold MAX_ATTEMPTS at hrow h2 ⊢
    omega

theorem isValidating_processGuess (s : GameState) (g : String) :
    (processGuess s g).isValidating = false := by
  unfold processGuess
  rfl

theorem stateInv_processGuess (s : GameState) (g : String) (h : StateInv s) :
    StateInv (processGuess s g) := by
  have hcr := stateInv_checkGameResult
    { s with board :=
        applyStatuses s.board s.currentRow (scoreGuess g.toList s.targetWord.toList) }
    g ⟨h.1, h.2.1, h.2.2⟩
  exact ⟨hcr.1, hcr.2, by simp [isValidating_processGuess s g]⟩

theorem stateInv_submitComplete (s : GameState) (g : String) (r : ValidationResult)
    (h : StateInv s) : StateInv (submitComplete s g r) := by
  obtain ⟨h1, h2, _⟩ := h
  cases r with
  | invalid => exact ⟨h1, h2, by simp [submitComplete]⟩
  | error => exact ⟨h1, h2, by simp [submitComplete]⟩
  | valid => exact stateInv_processGuess s g ⟨h1, h2, fun hv hg => (by simp_all : _)⟩

theorem stateInv_handleKeyPress (s : GameState) (k : Key) (h : StateInv s) :
    StateInv (handleKeyPress s k) := by
  obtain ⟨h1, h2, h3⟩ := h
  unfold handleKeyPress
  by_cases hgo : s.gameOver = true
  · rw [if_pos hgo]; exact ⟨h1, h2, h3⟩
  · rw [if_neg hgo]
    by_cases hie : (!s.inputEnabled) = true
    · rw [if_pos hie]; exact ⟨h1, h2, h3⟩
    · rw [if_neg hie]
      by_cases hen : s.isValidating = true ∧ k = Key.enter
      · rw [if_pos hen]; exact ⟨h1, h2, h3⟩
      · rw [if_neg hen]
        by_cases hdel : s.isValidating = true ∧ k = Key.backspace
        · rw [if_pos hdel]; exact ⟨h1, h2, h3⟩
        · rw [if_neg hdel]
          cases k with
          | enter => exact stateInv_submitGuess s ⟨h1, h2, h3⟩
          | backspace =>
            refine stateInv_deleteLetter s ⟨h1, h2, h3⟩ ?_
            cases hvv : s.isValidating with
            | false => rfl
            | true => exact absurd ⟨hvv, rfl⟩ hdel
          | letter c =>
            show StateInv (if s.currentTile < WORD_LENGTH then addLetter s c else s)
            by_cases htile : s.currentTile < WORD_LENGTH
            · rw [if_pos htile]
              refine stateInv_addLetter s c ⟨h1, h2, h3⟩ ?_
              intro hv' hg'
              have := h3 hv' hg'
              omega
            · rw [if_neg htile]
              exact ⟨h1, h2, h3⟩

theorem stateInv_step (s : GameState) (e : Ev) (h : StateInv s) : StateInv (step s e) := by
  cases e with
  | key k => exact stateInv_handleKeyPress s k h
  | complete r =>
    unfold step
    cases hp : s.pending with
    | none => exact h
    | some g => exact stateInv_submitComplete _ g r ⟨h.1, h.2.1, h.2.2⟩
  | reset k =>
    refine ⟨?_, ?_, ?_⟩ <;> simp [step, resetToNewGame, WORD_LENGTH, MAX_ATTEMPTS]

theorem stateInv_run (evs : List Ev) :
    ∀ s : GameState, StateInv s → StateInv (run s evs) := by
  induction evs with
  | nil => intro s h; exact h
  | cons e evs ih =>
    intro s h
    exact ih (step s e) (stateInv_step s e h)

/-- C4: over every event sequence from a fresh session, the cursor stays
in `[0, WORD_LENGTH]` and the row stays in `[0, MAX_ATTEMPTS)` while the
session is non-terminal; moreover `deleteLetter` at cursor 0 and
`addLetter` at a full cursor are no-ops. -/
theorem c4_cursor_bounds :
    (∀ (k : Fin WORDS.length) (evs : List Ev),
      (run (initState k) evs).gameOver = false →
        (run (initState k) evs).currentTile ≤ WORD_LENGTH ∧
        (run (initState k) evs).currentRow < MAX_ATTEMPTS) ∧
    (∀ s : GameState, s.currentTile = 0 → deleteLetter s = s) ∧
    (∀ (s : GameState) (c : Char), WORD_LENGTH ≤ s.currentTile → addLetter s c = s) := by
  refine ⟨?_, ?_, ?_⟩
  · intro k evs _
    have h := stateInv_run evs (initState k) (stateInv_initState k)
    exact ⟨h.1, h.2.1⟩
  · intro s h0
    unfold deleteLetter
    rw [if_neg (by omega)]
  · intro s c h5
    unfold addLetter
    rw [if_pos h5]

/-- Witness for C4: a one-letter session keeps the bounds; `deleteLetter`
on the fresh state and `addLetter` on a filled row are no-ops. -/
theorem c4_cursor_bounds_witness :
    ((run (initState ⟨0, by decide⟩) [Ev.key (Key.letter 'A')]).gameOver = false ∧
      ((run (initState ⟨0, by decide⟩) [Ev.key (Key.letter 'A')]).currentTile ≤ WORD_LENGTH ∧
       (run (initState ⟨0, by decide⟩) [Ev.key (Key.letter 'A')]).currentRow < MAX_ATTEMPTS)) ∧
    ((initState ⟨0, by decide⟩).currentTile = 0 ∧
      deleteLetter (initState ⟨0, by decide⟩) = initState ⟨0, by decide⟩) ∧
    (WORD_LENGTH ≤ (run (initState ⟨0, by decide⟩)
        ((List.replicate 5 (Ev.key (Key.letter 'A'))))).currentTile ∧
      addLetter (run (initState ⟨0, by decide⟩)
        ((List.replicate 5 (Ev.key (Key.letter 'A'))))) 'B' =
      run (initState ⟨0, by decide⟩) ((List.replicate 5 (Ev.key (Key.letter 'A'))))) :=
  ⟨⟨by decide, c4_cursor_bounds.1 ⟨0, by decide⟩ [Ev.key (Key.letter 'A')] (by decide)⟩,
   ⟨by decide, c4_cursor_bounds.2.1 _ (by decide)⟩,
   ⟨by decide, c4_cursor_bounds.2.2 _ 'B' (by decide)⟩⟩

/-- Letter keys are not guarded by `isValidating`, but at a full cursor
the `currentTile < WORD_LENGTH` dispatch test makes them dead. -/
theorem handleKeyPress_letter_noop (s : GameState) (c : Char)
    (ht : ¬ s.currentTile < WORD_LENGTH) :
    handleKeyPress s (Key.letter c) = s := by
  unfold handleKeyPress
  by_cases hgo : s.gameOver = true
  · rw [if_pos hgo]
  · rw [if_neg hgo]
    by_cases hie : (!s.inputEnabled) = true
    · rw [if_pos hie]
    · rw [if_neg hie]
      rw [if_neg (fun hh => Key.noConfusion hh.2)]
      rw [if_neg (fun hh => Key.noConfusion hh.2)]
      show (if s.currentTile < WORD_LENGTH then addLetter s c else s) = s
      rw [if_neg ht]

/-- C9: in every reachable state, an in-flight validation on a
non-terminal session implies the cursor is at `WORD_LENGTH`, so letter
keys — not guarded by `isValidating` — cannot modify the active row
(each is a no-op). -/
theorem c9_inflight_cursor_full (k : Fin WORDS.length) (evs : List Ev)
    (hv : (run (initState k) evs).isValidating = true)
    (hg : (run (initState k) evs).gameOver = false) :
    (run (initState k) evs).currentTile = WORD_LENGTH ∧
    ∀ c : Char, handleKeyPress (run (initState k) evs) (Key.letter c) =
      run (initState k) evs := by
  have h := stateInv_run evs (initState k) (stateInv_initState k)
  have ht := h.2.2 hv hg
  exact ⟨ht, fun c => handleKeyPress_letter_noop _ c (by omega)⟩

/-- Witness for C9: after typing five letters and pressing ENTER the
validation is in flight, the cursor is full and letter keys are dead. -/
theorem c9_inflight_cursor_full_witness :
    ((run (initState ⟨0, by decide⟩)
        (List.replicate 5 (Ev.key (Key.letter 'A')) ++ [Ev.key Key.enter])).isValidating = true ∧
     (run (initState ⟨0, by decide⟩)
        (List.replicate 5 (Ev.key (Key.letter 'A')) ++ [Ev.key Key.enter])).gameOver = false) ∧
    ((run (initState ⟨0, by decide⟩)
        (List.replicate 5 (Ev.key (Key.letter 'A')) ++ [Ev.key Key.enter])).currentTile = WORD_LENGTH ∧
     ∀ c : Char, handleKeyPress (run (initState ⟨0, by decide⟩)
        (List.replicate 5 (Ev.key (Key.letter 'A')) ++ [Ev.key Key.enter])) (Key.letter c) =
       run (initState ⟨0, by decide⟩)
        (List.replicate 5 (Ev.key (Key.letter 'A')) ++ [Ev.key Key.enter])) :=
  ⟨⟨by decide, by decide⟩,
   c9_inflight_cursor_full ⟨0, by decide⟩ _ (by decide) (by decide)⟩

/-! ## Target-word provenance (C10) -/

theorem targetWord_handleKeyPress (s : GameState) (k : Key) :
    (handleKeyPress s k).targetWord = s.targetWord := by
  unfold handleKeyPress submitGuess deleteLetter addLetter
  cases k <;> split_ifs <;> rfl

theorem targetWord_submitComplete (s : GameState) (g : String) (r : ValidationResult) :
    (submitComplete s g r).targetWord = s.targetWord := by
  cases r with
  | invalid => rfl
  | error => rfl
  | valid =>
    show (processGuess s g).targetWord = s.targetWord
    unfold processGuess checkGameResult endGameWon endGameLost
    split_ifs <;> rfl

theorem targetWord_step_of_ne_reset (s : GameState) (e : Ev)
    (h : ∀ j, e ≠ Ev.reset j) : (step s e).targetWord = s.targetWord := by
  cases e with
  | key k => exact targetWord_handleKeyPress s k
  | complete r =>
    unfold step
    cases hp : s.pending with
    | none => rfl
    | some g => exact targetWord_submitComplete _ g r
  | reset j => exact absurd rfl (h j)

/-- C10: the target word is always an element of the 40-entry `WORDS`
list — it is drawn from `WORDS` at startup and on every `resetToNewGame`,
and no non-reset event ever reassigns it. -/
theorem c10_target_in_words :
    (∀ (k : Fin WORDS.length) (evs : List Ev),
      (run (initState k) evs).targetWord ∈ WORDS) ∧
    (∀ (s : GameState) (e : Ev), (∀ j, e ≠ Ev.reset j) →
      (step s e).targetWord = s.targetWord) := by
  constructor
  · intro k evs
    have hrun : ∀ s : GameState, s.targetWord ∈ WORDS → (run s evs).targetWord ∈ WORDS := by
      induction evs with
      | nil => exact fun s h => h
      | cons e evs ih =>
        intro s h
        apply ih
        by_cases hr : ∃ j, e = Ev.reset j
        · obtain ⟨j, rfl⟩ := hr
          exact List.get_mem WORDS j.1 j.2
        · rw [targetWord_step_of_ne_reset s e (fun j hj => hr ⟨j, hj⟩)]
          exact h
    exact hrun (initState k) (List.get_mem WORDS k.1 k.2)
  · exact targetWord_step_of_ne_reset

/-- Witness for C10: a reset draws from `WORDS`; a key event preserves
the target word. -/
theorem c10_target_in_words_witness :
    (run (initState ⟨0, by decide⟩) [Ev.reset ⟨1, by decide⟩]).targetWord ∈ WORDS ∧
    ((∀ j, Ev.key Key.enter ≠ Ev.reset j) ∧
      (step (initState ⟨0, by decide⟩) (Ev.key Key.enter)).targetWord =
        (initState ⟨0, by decide⟩).targetWord) :=
  ⟨c10_target_in_words.1 ⟨0, by decide⟩ [Ev.reset ⟨1, by decide⟩],
   by decide,
   c10_target_in_words.2 (initState ⟨0, by decide⟩) (Ev.key Key.enter) (by decide)⟩

/-! ## Submission failure paths (C3), win/loss stats (C5, C6), gate (C8) -/

theorem submitGuess_proceeds (s : GameState)
    (h3 : s.isValidating = false) (h4 : s.currentTile = WORD_LENGTH)
    (h5 : (currentGuess s).length = WORD_LENGTH)
    (h6 : trimmedEmpty (currentGuess s) = false) :
    submitGuess s = { s with isValidating := true, pending := some (currentGuess s) } := by
  unfold submitGuess
  rw [if_neg (by simp [h3]), if_neg (by omega), if_neg (by simp [h5, h6])]

/-- C3: a submitted complete guess whose dictionary check resolves `false`
or rejects leaves `currentRow`, `currentTile`, the board and the terminal
flag untouched (the attempt is not consumed, the session does not become
terminal), and `isValidating` is cleared in that same handler. -/
theorem c3_invalid_word_frame (s : GameState) (r : ValidationResult)
    (h3 : s.isValidating = false) (h4 : s.currentTile = WORD_LENGTH)
    (h5 : (currentGuess s).length = WORD_LENGTH)
    (h6 : trimmedEmpty (currentGuess s) = false)
    (hr : r ≠ ValidationResult.valid) :
    (step (submitGuess s) (Ev.complete r)).currentRow = s.currentRow ∧
    (step (submitGuess s) (Ev.complete r)).currentTile = s.currentTile ∧
    (step (submitGuess s) (Ev.complete r)).board = s.board ∧
    (step (submitGuess s) (Ev.complete r)).gameOver = s.gameOver ∧
    (step (submitGuess s) (Ev.complete r)).isValidating = false := by
  rw [submitGuess_proceeds s h3 h4 h5 h6]
  cases r with
  | valid => exact absurd rfl hr
  | invalid => exact ⟨rfl, rfl, rfl, rfl, rfl⟩
  | error => exact ⟨rfl, rfl, rfl, rfl, rfl⟩

/-- Witness for C3: the typed guess `"CRANE"` rejected as not in the word
list consumes nothing. -/
theorem c3_invalid_word_frame_witness :
    ((run (initState ⟨0, by decide⟩)
        [Ev.key (Key.letter 'C'), Ev.key (Key.letter 'R'), Ev.key (Key.letter 'A'),
         Ev.key (Key.letter 'N'), Ev.key (Key.letter 'E')]).isValidating = false ∧
     (run (initState ⟨0, by decide⟩)
        [Ev.key (Key.letter 'C'), Ev.key (Key.letter 'R'), Ev.key (Key.letter 'A'),
         Ev.key (Key.letter 'N'), Ev.key (Key.letter 'E')]).currentTile = WORD_LENGTH) ∧
    ((step (submitGuess (run (initState ⟨0, by decide⟩)
        [Ev.key (Key.letter 'C'), Ev.key (Key.letter 'R'), Ev.key (Key.letter 'A'),
         Ev.key (Key.letter 'N'), Ev.key (Key.letter 'E')])) (Ev.complete ValidationResult.invalid)).currentRow =
      (run (initState ⟨0, by decide⟩)
        [Ev.key (Key.letter 'C'), Ev.key (Key.letter 'R'), Ev.key (Key.letter 'A'),
         Ev.key (Key.letter 'N'), Ev.key (Key.letter 'E')]).currentRow ∧
     (step (submitGuess (run (initState ⟨0, by decide⟩)
        [Ev.key (Key.letter 'C'), Ev.key (Key.letter 'R'), Ev.key (Key.letter 'A'),
         Ev.key (Key.letter 'N'), Ev.key (Key.letter 'E')])) (Ev.complete ValidationResult.invalid)).isValidating = false) :=
  ⟨⟨by decide, by decide⟩,
   ((c3_invalid_word_frame _ ValidationResult.invalid (by decide) (by decide)
      (by decide) (by decide) (by decide)).1),
   ((c3_invalid_word_frame _ ValidationResult.invalid (by decide) (by decide)
      (by decide) (by decide) (by decide)).2.2.2.2)⟩

/-- C5: a valid submitted guess equal to the target word makes the
session `Won`: `gamesPlayed`, `gamesWon` and `currentStreak` each grow by
exactly 1 and `maxStreak` becomes the maximum of its old value and the
new `currentStreak`. -/
theorem c5_win_stats (s : GameState) (g : String)
    (hp : s.pending = some g) (hw : g = s.targetWord) :
    (step s (Ev.complete ValidationResult.valid)).gameOver = true ∧
    (step s (Ev.complete ValidationResult.valid)).stats.gamesPlayed = s.stats.gamesPlayed + 1 ∧
    (step s (Ev.complete ValidationResult.valid)).stats.gamesWon = s.stats.gamesWon + 1 ∧
    (step s (Ev.complete ValidationResult.valid)).stats.currentStreak = s.stats.currentStreak + 1 ∧
    (step s (Ev.complete ValidationResult.valid)).stats.maxStreak =
      Nat.max s.stats.maxStreak ((step s (Ev.complete ValidationResult.valid)).stats.currentStreak) := by
  have hstep : step s (Ev.complete ValidationResult.valid) =
      processGuess { s with pending := none } g := by
    unfold step
    rw [hp]
    rfl
  rw [hstep]
  unfold processGuess checkGameResult endGameWon
  rw [if_pos (show g = _ from hw)]
  exact ⟨rfl, rfl, rfl, rfl, rfl⟩

/-- Witness for C5: winning with `"CRANE"` on the first attempt. -/
theorem c5_win_stats_witness :
    ((run (initState ⟨0, by decide⟩)
        [Ev.key (Key.letter 'C'), Ev.key (Key.letter 'R'), Ev.key (Key.letter 'A'),
         Ev.key (Key.letter 'N'), Ev.key (Key.letter 'E'), Ev.key Key.enter]).pending =
      some "CRANE" ∧
     "CRANE" = (run (initState ⟨0, by decide⟩)
        [Ev.key (Key.letter 'C'), Ev.key (Key.letter 'R'), Ev.key (Key.letter 'A'),
         Ev.key (Key.letter 'N'), Ev.key (Key.letter 'E'), Ev.key Key.enter]).targetWord) ∧
    ((step (run (initState ⟨0, by decide⟩)
        [Ev.key (Key.letter 'C'), Ev.key (Key.letter 'R'), Ev.key (Key.letter 'A'),
         Ev.key (Key.letter 'N'), Ev.key (Key.letter 'E'), Ev.key Key.enter])
        (Ev.complete ValidationResult.valid)).gameOver = true ∧
     (step (run (initState ⟨0, by decide⟩)
        [Ev.key (Key.letter 'C'), Ev.key (Key.letter 'R'), Ev.key (Key.letter 'A'),
         Ev.key (Key.letter 'N'), Ev.key (Key.letter 'E'), Ev.key Key.enter])
        (Ev.complete ValidationResult.valid)).stats.gamesWon =
      (run (initState ⟨0, by decide⟩)
        [Ev.key (Key.letter 'C'), Ev.key (Key.letter 'R'), Ev.key (Key.letter 'A'),
         Ev.key (Key.letter 'N'), Ev.key (Key.letter 'E'), Ev.key Key.enter]).stats.gamesWon + 1) :=
  ⟨⟨by decide, by decide⟩,
   (c5_win_stats _ "CRANE" (by decide) (by decide)).1,
   (c5_win_stats _ "CRANE" (by decide) (by decide)).2.2.1⟩

/-- C6: a valid submitted guess different from the target on the last
attempt makes the session `Lost`: `gamesPlayed` grows by exactly 1,
`currentStreak` resets to 0, and `gamesWon` and `maxStreak` are
unchanged. -/
theorem c6_loss_stats (s : GameState) (g : String)
    (hp : s.pending = some g) (hw : g ≠ s.targetWord)
    (hrow : s.currentRow = MAX_ATTEMPTS - 1) :
    (step s (Ev.complete ValidationResult.valid)).gameOver = true ∧
    (step s (Ev.complete ValidationResult.valid)).stats.gamesPlayed = s.stats.gamesPlayed + 1 ∧
    (step s (Ev.complete ValidationResult.valid)).stats.currentStreak = 0 ∧
    (step s (Ev.complete ValidationResult.valid)).stats.gamesWon = s.stats.gamesWon ∧
    (step s (Ev.complete ValidationResult.valid)).stats.maxStreak = s.stats.maxStreak := by
  have hstep : step s (Ev.complete ValidationResult.valid) =
      processGuess { s with pending := none } g := by
    unfold step
    rw [hp]
    rfl
  rw [hstep]
  unfold processGuess checkGameResult endGameLost
  rw [if_neg (show ¬(g = _) from hw), if_pos (show _ = MAX_ATTEMPTS - 1 from hrow)]
  exact ⟨rfl, rfl, rfl, rfl, rfl⟩

/-- A session sitting on its last attempt with a wrong guess in flight,
used to witness the loss transition. -/
def lastRowState : GameState :=
  { targetWord := "CRANE"
    currentRow := 5
    currentTile := 5
    gameOver := false
    stats := ⟨4, 2, 1, 3⟩
    isValidating := true
    inputEnabled := true
    gameStarted := true
    board := initBoard
    pending := some "SLATE" }

/-- Witness for C6: a wrong guess on the sixth row loses the game. -/
theorem c6_loss_stats_witness :
    (lastRowState.pending = some "SLATE" ∧
     ("SLATE" : String) ≠ lastRowState.targetWord ∧
     lastRowState.currentRow = MAX_ATTEMPTS - 1) ∧
    ((step lastRowState (Ev.complete ValidationResult.valid)).stats.gamesPlayed = 5 ∧
     (step lastRowState (Ev.complete ValidationResult.valid)).stats.currentStreak = 0 ∧
     (step lastRowState (Ev.complete ValidationResult.valid)).stats.gamesWon = 2 ∧
     (step lastRowState (Ev.complete ValidationResult.valid)).stats.maxStreak = 3) :=
  ⟨⟨rfl, by decide, by decide⟩,
   (c6_loss_stats lastRowState "SLATE" rfl (by decide) (by decide)).2.1,
   (c6_loss_stats lastRowState "SLATE" rfl (by decide) (by decide)).2.2.1,
   (c6_loss_stats lastRowState "SLATE" rfl (by decide) (by decide)).2.2.2.1,
   (c6_loss_stats lastRowState "SLATE" rfl (by decide) (by decide)).2.2.2.2⟩

/-- C8: while a validation is in flight a further ENTER is a no-op, so
two ENTERs in rapid succession create exactly one validation request. -/
theorem c8_enter_single_flight (s : GameState)
    (h1 : s.gameOver = false) (h2 : s.inputEnabled = true) (h3 : s.isValidating = false)
    (h4 : s.currentTile = WORD_LENGTH)
    (h5 : (currentGuess s).length = WORD_LENGTH)
    (h6 : trimmedEmpty (currentGuess s) = false) :
    (handleKeyPress s Key.enter).isValidating = true ∧
    (handleKeyPress s Key.enter).pending = some (currentGuess s) ∧
    handleKeyPress (handleKeyPress s Key.enter) Key.enter = handleKeyPress s Key.enter := by
  have hfirst : handleKeyPress s Key.enter =
      { s with isValidating := true, pending := some (currentGuess s) } := by
    unfold handleKeyPress
    rw [if_neg (by simp [h1]), if_neg (by simp [h2])]
    rw [if_neg (by simp [h3]), if_neg (by simp [h3])]
    show submitGuess s = _
    exact submitGuess_proceeds s h3 h4 h5 h6
  refine ⟨by rw [hfirst], by rw [hfirst], ?_⟩
  rw [hfirst]
  unfold handleKeyPress
  rw [if_neg (by simp [h1]), if_neg (by simp [h2]), if_pos ⟨rfl, rfl⟩]

/-- Witness for C8: double ENTER after typing `"CRANE"`. -/
theorem c8_enter_single_flight_witness :
    ((run (initState ⟨0, by decide⟩)
        [Ev.key (Key.letter 'C'), Ev.key (Key.letter 'R'), Ev.key (Key.letter 'A'),
         Ev.key (Key.letter 'N'), Ev.key (Key.letter 'E')]).gameOver = false ∧
     (run (initState ⟨0, by decide⟩)
        [Ev.key (Key.letter 'C'), Ev.key (Key.letter 'R'), Ev.key (Key.letter 'A'),
         Ev.key (Key.letter 'N'), Ev.key (Key.letter 'E')]).isValidating = false) ∧
    ((handleKeyPress (run (initState ⟨0, by decide⟩)
        [Ev.key (Key.letter 'C'), Ev.key (Key.letter 'R'), Ev.key (Key.letter 'A'),
         Ev.key (Key.letter 'N'), Ev.key (Key.letter 'E')]) Key.enter).isValidating = true ∧
     handleKeyPress (handleKeyPress (run (initState ⟨0, by decide⟩)
        [Ev.key (Key.letter 'C'), Ev.key (Key.letter 'R'), Ev.key (Key.letter 'A'),
         Ev.key (Key.letter 'N'), Ev.key (Key.letter 'E')]) Key.enter) Key.enter =
       handleKeyPress (run (initState ⟨0, by decide⟩)
        [Ev.key (Key.letter 'C'), Ev.key (Key.letter 'R'), Ev.key (Key.letter 'A'),
         Ev.key (Key.letter 'N'), Ev.key (Key.letter 'E')]) Key.enter) :=
  ⟨⟨by decide, by decide⟩,
   (c8_enter_single_flight _ (by decide) (by decide) (by decide) (by decide)
      (by decide) (by decide)).1,
   (c8_enter_single_flight _ (by decide) (by decide) (by decide) (by decide)
      (by decide) (by decide)).2.2⟩

/-! ## Persistence round-trip (C7) and corrupt-restore behaviour (C2) -/

theorem applyTiles_boardTiles (b b0 : Board) (i j : Nat)
    (hi : i < MAX_ATTEMPTS) (hj : j < WORD_LENGTH) :
    applyTiles (boardTiles b) b0 i j = b i j := by
  unfold MAX_ATTEMPTS at hi
  unfold WORD_LENGTH at hj
  interval_cases i <;> interval_cases j <;> rfl

/-- C7: snapshotting a started, non-terminal session with
`saveCompleteGameState` and then restoring with `restoreGameState`
reproduces the same target word, row, cursor and per-tile board
contents. -/
theorem c7_save_restore_roundtrip (now : Nat) (s g0 : GameState) (st : Storage)
    (h1 : s.gameStarted = true) (h2 : s.gameOver = false) :
    (restoreGameState g0 (saveCompleteGameState now s st)).1 = true ∧
    (restoreGameState g0 (saveCompleteGameState now s st)).2.targetWord = s.targetWord ∧
    (restoreGameState g0 (saveCompleteGameState now s st)).2.currentRow = s.currentRow ∧
    (restoreGameState g0 (saveCompleteGameState now s st)).2.currentTile = s.currentTile ∧
    ∀ i j : Nat, i < MAX_ATTEMPTS → j < WORD_LENGTH →
      (restoreGameState g0 (saveCompleteGameState now s st)).2.board i j = s.board i j := by
  have hsave : saveCompleteGameState now s st =
      { st with
        gameState := some (StoredValue.parsed
          ⟨now, true, s.targetWord, s.currentRow, s.currentTile, s.gameOver,
           some (boardTiles s.board), []⟩)
        activeGame := some "true" } := by
    unfold saveCompleteGameState
    rw [if_pos ⟨h1, h2⟩]
  rw [hsave]
  refine ⟨rfl, rfl, rfl, rfl, fun i j hi hj => ?_⟩
  show applyTiles (boardTiles s.board) g0.board i j = s.board i j
  exact applyTiles_boardTiles s.board g0.board i j hi hj

/-- A started mid-game session used to witness the round-trip. -/
def startedState : GameState :=
  { targetWord := "CRANE"
    currentRow := 1
    currentTile := 2
    gameOver := false
    stats := ⟨1, 1, 1, 1⟩
    isValidating := false
    inputEnabled := true
    gameStarted := true
    board := updateTile initBoard 0 0 fun t => { t with content := "C" }
    pending := none }

/-- Witness for C7: round trip of a concrete mid-game session onto a
fresh post-reload state. -/
theorem c7_save_restore_roundtrip_witness :
    (startedState.gameStarted = true ∧ startedState.gameOver = false) ∧
    ((restoreGameState (initState ⟨0, by decide⟩)
        (saveCompleteGameState 0 startedState ⟨none, none⟩)).1 = true ∧
     (restoreGameState (initState ⟨0, by decide⟩)
        (saveCompleteGameState 0 startedState ⟨none, none⟩)).2.currentRow =
       startedState.currentRow ∧
     ∀ i j : Nat, i < MAX_ATTEMPTS → j < WORD_LENGTH →
       (restoreGameState (initState ⟨0, by decide⟩)
          (saveCompleteGameState 0 startedState ⟨none, none⟩)).2.board i j =
         startedState.board i j) :=
  ⟨⟨rfl, rfl⟩,
   (c7_save_restore_roundtrip 0 startedState (initState ⟨0, by decide⟩) ⟨none, none⟩ rfl rfl).1,
   (c7_save_restore_roundtrip 0 startedState (initState ⟨0, by decide⟩) ⟨none, none⟩ rfl rfl).2.2.1,
   (c7_save_restore_roundtrip 0 startedState (initState ⟨0, by decide⟩) ⟨none, none⟩ rfl rfl).2.2.2.2⟩

/-- A snapshot whose JSON parses but which lacks the `boardState` array:
`state.boardState.forEach` throws only after the scalar fields are
assigned. -/
def corruptSnapshot : GameSnapshot :=
  { timestamp := 0
    active := true
    targetWord := "XXXXX"
    currentRow := 3
    currentTile := 2
    gameOver := true
    boardState := none
    guesses := [] }

/-- Storage holding the corrupt snapshot together with the `"true"`
active-game marker. -/
def corruptStorage : Storage :=
  { gameState := some (StoredValue.parsed corruptSnapshot)
    activeGame := some "true" }

/-- C2 evidence: on a snapshot that parses but lacks `boardState`, the
restore fails (`false`) yet `targetWord`, `currentRow`, `currentTile` and
`gameOver` have already been overwritten from the corrupt snapshot — the
session state is not left as it was before the attempt.
`initSessionProtection` does clear both storage keys afterwards, but the
half-applied scalar fields remain. -/
theorem c2_half_applied_restore :
    (restoreGameState (initState ⟨0, by decide⟩) corruptStorage).1 = false ∧
    (restoreGameState (initState ⟨0, by decide⟩) corruptStorage).2.currentRow = 3 ∧
    (restoreGameState (initState ⟨0, by decide⟩) corruptStorage).2.targetWord = "XXXXX" ∧
    (restoreGameState (initState ⟨0, by decide⟩) corruptStorage).2.gameOver = true ∧
    (initState ⟨0, by decide⟩).currentRow = 0 ∧
    (initState ⟨0, by decide⟩).targetWord = "CRANE" ∧
    (initSessionProtection false (initState ⟨0, by decide⟩) corruptStorage).2.gameState = none ∧
    (initSessionProtection false (initState ⟨0, by decide⟩) corruptStorage).2.activeGame = none ∧
    (initSessionProtection false (initState ⟨0, by decide⟩) corruptStorage).1.currentRow = 3 :=
  ⟨rfl, rfl, rfl, rfl, rfl, rfl, rfl, rfl, rfl⟩
